import Mathlib

/-!
Verification of the iblrig preflight-check script (`iblrig/prefc.py`) and the
environment installer (`install.py`), shallowly embedded in Lean 4.

The parameter store is modelled as an association list of string keys to string
values (a Python dict with string values); Python exceptions are modelled with
an explicit error type and `Except`; device and filesystem behaviour is
modelled by explicit outcome parameters (an exception option per external
call).  `datetime.date` arithmetic (`timedelta(days=n)` and dateutil's
`relativedelta(months=n)`) is implemented over a proleptic Gregorian calendar.
-/

/-- Python exception kinds that the embedded code can raise. -/
inductive PyErr where
  | keyError
  | typeError
  | attributeError
  | assertionError
  | valueError
  | eofError
  | fileNotFoundError
  | deviceError
deriving DecidableEq, Repr

deriving instance DecidableEq for Except

/-- A calendar date, as Python's `datetime.date` (year, month, day). -/
structure Date where
  year : Nat
  month : Nat
  day : Nat
deriving DecidableEq, Repr

/-- Gregorian leap-year rule (Python `calendar.isleap`). -/
def isLeap (y : Nat) : Bool :=
  y % 4 == 0 && (y % 100 != 0 || y % 400 == 0)

/-- Number of days in a month of a given year. -/
def daysInMonth (y m : Nat) : Nat :=
  if m == 2 then (if isLeap y then 29 else 28)
  else if m == 4 || m == 6 || m == 9 || m == 11 then 30
  else 31

/-- The day after `d` in the Gregorian calendar. -/
def nextDay (d : Date) : Date :=
  if d.day < daysInMonth d.year d.month then ⟨d.year, d.month, d.day + 1⟩
  else if d.month < 12 then ⟨d.year, d.month + 1, 1⟩
  else ⟨d.year + 1, 1, 1⟩

/-- `d + datetime.timedelta(days=n)`. -/
def addDays : Date → Nat → Date
  | d, 0 => d
  | d, n + 1 => addDays (nextDay d) n

/-- `d + dateutil.relativedelta.relativedelta(months=n)`: advance the month
index, clamping the day to the length of the target month. -/
def addMonths (d : Date) (n : Nat) : Date :=
  let t := d.month - 1 + n
  let y := d.year + t / 12
  let m := t % 12 + 1
  ⟨y, m, min d.day (daysInMonth y m)⟩

/-- Strict `<` on dates (Python `date.__lt__`), lexicographic. -/
def dateLt (a b : Date) : Bool :=
  Nat.blt a.year b.year ||
    (a.year == b.year &&
      (Nat.blt a.month b.month ||
        (a.month == b.month && Nat.blt a.day b.day)))

/-- The parameter store: a Python dict of string keys to string values,
modelled as an association list in insertion order. -/
abbrev Store := List (String × String)

/-- `leadsWith p l` : `p` is a leading segment of `l`. -/
def leadsWith : List Char → List Char → Bool
  | [], _ => true
  | _ :: _, [] => false
  | a :: as, b :: bs => a == b && leadsWith as bs

/-- `containsSeq p l` : `p` occurs contiguously somewhere inside `l`. -/
def containsSeq (p : List Char) : List Char → Bool
  | [] => leadsWith p []
  | c :: cs => leadsWith p (c :: cs) || containsSeq p cs

/-- Python `pat in hay` for strings: substring containment. -/
def strContains (hay pat : String) : Bool :=
  containsSeq pat.data hay.data

/-- Result type of `_grep_param_dict`: a sub-dictionary, or — when exactly one
entry matched — just that entry's bare value. -/
inductive GrepResult where
  | dict (d : Store)
  | single (v : String)
deriving DecidableEq, Repr

/-- `_grep_param_dict(pattern)`: the sub-dictionary of all entries whose key
contains `pattern`; if that sub-dictionary has exactly one entry, its bare
value is returned instead. -/
def grep_param_dict (pattern : String) (store : Store) : GrepResult :=
  match store.filter (fun kv => strContains kv.1 pattern) with
  | [kv] => .single kv.2
  | l => .dict l

/-- Python `needle in x` applied to the result of `_grep_param_dict`:
key membership for a dict, substring containment for a bare string value. -/
def pyIn (needle : String) : GrepResult → Bool
  | .single v => strContains v needle
  | .dict d => d.any (fun kv => kv.1 == needle)

/-- Python `d[k]` on a dict: the value at `k`, or a `KeyError`. -/
def dictLookup (d : Store) (k : String) : Except PyErr String :=
  match d.find? (fun kv => kv.1 == k) with
  | some kv => .ok kv.2
  | none => .error .keyError

/-- A nonempty all-digit character sequence read as a decimal number. -/
def digitsToNat : List Char → Option Nat
  | [] => none
  | cs =>
    if cs.all Char.isDigit then
      some (cs.foldl (fun acc c => acc * 10 + (c.toNat - 48)) 0)
    else none

/-- Split a character list at each dash. -/
def splitDash : List Char → List (List Char)
  | [] => [[]]
  | c :: cs =>
    if c == '-' then [] :: splitDash cs
    else
      match splitDash cs with
      | [] => [[c]]
      | h :: t => (c :: h) :: t

/-- `datetime.datetime.strptime(s, "%Y-%m-%d").date()`: parse a
dash-separated year-month-day string, validating the calendar ranges;
`none` models the `ValueError` raised on malformed input. -/
def strptimeDate (s : String) : Option Date :=
  match splitDash s.data with
  | [ys, ms, ds] =>
    match digitsToNat ys, digitsToNat ms, digitsToNat ds with
    | some y, some m, some d =>
      if 1 ≤ y && 1 ≤ m && m ≤ 12 && 1 ≤ d && d ≤ daysInMonth y m then
        some ⟨y, m, d⟩
      else none
    | _, _, _ => none
  | _ => none

/-- The five calibration-date keys of the `thresh` dict in
`calibration_dates_ok`. -/
def calKeys : List String :=
  ["F2TTL_CALIBRATION_DATE", "SCREEN_FREQ_TEST_DATE", "SCREEN_LUX_DATE",
   "WATER_CALIBRATION_DATE", "BPOD_TTL_TEST_DATE"]

/-- Python `thresh.keys() == subdict.keys()`: equality of the two key sets. -/
def keysMatchCal (sd : Store) : Bool :=
  calKeys.all (fun k => sd.any (fun kv => kv.1 == k)) &&
    sd.all (fun kv => calKeys.contains kv.1)

/-- `date + thresh[k]` for the per-subsystem staleness window: 7 days for
F2TTL, 1 month for water calibration, 4 months for the other three. -/
def threshAdd (k : String) (d : Date) : Date :=
  if k == "F2TTL_CALIBRATION_DATE" then addDays d 7
  else if k == "WATER_CALIBRATION_DATE" then addMonths d 1
  else addMonths d 4

/-- Parse every value of the subdict (the dict comprehension over
`strptime`); `none` models the `ValueError` raised at the first
unparseable value. -/
def parseCalDates (sd : Store) : Option (List (String × Date)) :=
  sd.mapM (fun kv => (strptimeDate kv.2).map (fun d => (kv.1, d)))

/-- `calibration_dates_ok()` from `prefc.py`, parameterised by today's date
and the parameter store.  Mirrors the source exactly: grep the store for
`"DATE"` (an `AttributeError` arises when the grep collapses to a bare
string value and `.keys()` is taken on it), assert the key set matches the
`thresh` dict, report `False` when any date value is falsy, otherwise parse
the dates and return `all(out.values())` where
`out[k] = subdict[k] + thresh[k] < today`. -/
def calibration_dates_ok (today : Date) (store : Store) : Except PyErr Bool :=
  match grep_param_dict "DATE" store with
  | .single _ => .error .attributeError
  | .dict sd =>
    if keysMatchCal sd then
      if sd.all (fun kv => kv.2 != "") then
        match parseCalDates sd with
        | none => .error .valueError
        | some parsed =>
          .ok (parsed.all (fun kd => dateLt (threshAdd kd.1 kd.2) today))
      else .ok false
    else .error .assertionError

/-- `local_server_ok()`: looks up `DATA_FOLDER_REMOTE` and tests existence.
There is no exception handler: a `TypeError` (string-indexing the bare value
when the store greps to a single entry) or `KeyError` (missing key)
propagates to the caller.  `fs` is the filesystem existence oracle. -/
def local_server_ok (fs : String → Bool) (store : Store) : Except PyErr Bool :=
  match grep_param_dict "" store with
  | .single _ => .error .typeError
  | .dict pars =>
    match dictLookup pars "DATA_FOLDER_REMOTE" with
    | .error e => .error e
    | .ok v => .ok (fs v)

/-- `rig_data_folder_ok()`: as `local_server_ok` but for
`DATA_FOLDER_LOCAL`; again no exception handler. -/
def rig_data_folder_ok (fs : String → Bool) (store : Store) : Except PyErr Bool :=
  match grep_param_dict "" store with
  | .single _ => .error .typeError
  | .dict pars =>
    match dictLookup pars "DATA_FOLDER_LOCAL" with
    | .error e => .error e
    | .ok v => .ok (fs v)

/-- `alyx_ok()`: `ONE()` wrapped in try/except; the outcome of the
connection attempt is the parameter. -/
def alyx_ok (oneExc : Option PyErr) : Bool :=
  match oneExc with
  | some _ => false
  | none => true

/-- Outcome of one probe run, together with whether a device handle was
successfully opened and whether it was closed again before the probe
returned. -/
structure ProbeRun where
  result : Except PyErr Bool
  opened : Bool
  closed : Bool
deriving DecidableEq, Repr

/-- Outcomes of the rotary-encoder device calls: constructor
(`RotaryEncoderModule`), `set_zero_position`, `close`. -/
structure REWorld where
  openExc : Option PyErr
  zeroExc : Option PyErr
  closeExc : Option PyErr

/-- `rotary_encoder_ok()` with handle accounting.  The whole body is inside
`try`; any exception is caught and yields `False`.  `m.close()` is only
reached when `set_zero_position` did not raise: an exception there leaves
the opened handle unclosed. -/
def rotary_encoder_ok_run (store : Store) (w : REWorld) : ProbeRun :=
  match grep_param_dict "" store with
  | .single _ => ⟨.ok false, false, false⟩
  | .dict pars =>
    match dictLookup pars "COM_ROTARY_ENCODER" with
    | .error _ => ⟨.ok false, false, false⟩
    | .ok _ =>
      match w.openExc with
      | some _ => ⟨.ok false, false, false⟩
      | none =>
        match w.zeroExc with
        | some _ => ⟨.ok false, true, false⟩
        | none =>
          match w.closeExc with
          | some _ => ⟨.ok false, true, false⟩
          | none => ⟨.ok true, true, true⟩

/-- Outcomes of the Bpod serial calls: `serial.Serial(...)`, the two
`write`s, `close`. -/
structure BpodWorld where
  openExc : Option PyErr
  writeExc1 : Option PyErr
  writeExc2 : Option PyErr
  closeExc : Option PyErr

/-- `bpod_ok()` with handle accounting; body inside `try`, all exceptions
caught and converted to `False`. -/
def bpod_ok_run (store : Store) (w : BpodWorld) : ProbeRun :=
  match grep_param_dict "" store with
  | .single _ => ⟨.ok false, false, false⟩
  | .dict pars =>
    match dictLookup pars "COM_BPOD" with
    | .error _ => ⟨.ok false, false, false⟩
    | .ok _ =>
      match w.openExc with
      | some _ => ⟨.ok false, false, false⟩
      | none =>
        match w.writeExc1 with
        | some _ => ⟨.ok false, true, false⟩
        | none =>
          match w.writeExc2 with
          | some _ => ⟨.ok false, true, false⟩
          | none =>
            match w.closeExc with
            | some _ => ⟨.ok false, true, false⟩
            | none => ⟨.ok true, true, true⟩

/-- Outcomes of the Frame2TTL calls: constructor, `f.ser.isOpen()` (which
returns a boolean when it does not raise), `close`. -/
structure F2World where
  openExc : Option PyErr
  isOpenRes : Except PyErr Bool
  closeExc : Option PyErr

/-- `f2ttl_ok()` with handle accounting.  `out` starts `False`; on a raise
after `out = f.ser.isOpen()` the handler keeps the current `out`, so a raise
in `close` still returns the `isOpen` result — with the handle unclosed. -/
def f2ttl_ok_run (store : Store) (w : F2World) : ProbeRun :=
  match grep_param_dict "" store with
  | .single _ => ⟨.ok false, false, false⟩
  | .dict pars =>
    match dictLookup pars "COM_F2TTL" with
    | .error _ => ⟨.ok false, false, false⟩
    | .ok _ =>
      match w.openExc with
      | some _ => ⟨.ok false, false, false⟩
      | none =>
        match w.isOpenRes with
        | .error _ => ⟨.ok false, true, false⟩
        | .ok b =>
          match w.closeExc with
          | some _ => ⟨.ok b, true, false⟩
          | none => ⟨.ok b, true, true⟩

/-- Outcomes of the Bpod module-listing calls: `Bpod(...)`, the module
names read from the device, `close`. -/
structure BpodModWorld where
  openExc : Option PyErr
  mods : List String
  closeExc : Option PyErr

/-- `bpod_modules_ok()` with handle accounting.  The `ephys` test on the
grepped `NAME` entries happens before the `try`; inside it, any exception
leaves `out = False`. -/
def bpod_modules_ok_run (store : Store) (w : BpodModWorld) : ProbeRun :=
  let ephys_rig := pyIn "ephys" (grep_param_dict "NAME" store)
  let expected :=
    if ephys_rig then ["RotaryEncoder1", "AmbientModule1", "SoundCard1"]
    else ["RotaryEncoder1", "AmbientModule1"]
  match w.openExc with
  | some _ => ⟨.ok false, false, false⟩
  | none =>
    match w.closeExc with
    | some _ => ⟨.ok false, true, false⟩
    | none => ⟨.ok (expected.all (fun m => w.mods.contains m)), true, true⟩

/-- Binary digit string of `n` (most significant first), fuel-driven. -/
def binCore : Nat → Nat → List Char
  | 0, _ => []
  | _ + 1, 0 => []
  | fuel + 1, n => binCore fuel (n / 2) ++ [if n % 2 == 1 then '1' else '0']

/-- Python `bin(n)` for `n : Nat`. -/
def binString (n : Nat) : String :=
  "0b" ++ String.mk (if n == 0 then ['0'] else binCore n n)

/-- The accumulator of `alyx_server_rig_ok`: starts at `0b000`, adds
`0b100` when `ONE()` succeeds, `0b010` when globbing the remote data folder
succeeds, `0b001` when globbing the local data folder succeeds. -/
def alyx_server_rig_val (alyxUp remoteUp localUp : Bool) : Nat :=
  (if alyxUp then 4 else 0) + (if remoteUp then 2 else 0) +
    (if localUp then 1 else 0)

/-- `alyx_server_rig_ok()`: returns `bin(...)` of the accumulated status. -/
def alyx_server_rig_ok (alyxUp remoteUp localUp : Bool) : String :=
  binString (alyx_server_rig_val alyxUp remoteUp localUp)

/-! ## The installer (`install.py`) -/

/-- Outcome of each shell-out inside `check_dependencies` (`some e` models
the call raising `BaseException e`; `os.system` itself returns an exit code
and raising is exotic, but the source handles it, so we model it). -/
structure DepOutcomes where
  mambaExc : Option PyErr
  cacheExc : Option PyErr
  pythonUpExc : Option PyErr
  condaUpExc : Option PyErr
  pipUpExc : Option PyErr
  gitExc : Option PyErr
  remainingExc : Option PyErr

/-- `check_dependencies()`: the mamba-install step falls back to conda and
continues; the cache-clean and python-update steps return `1` on an
exception (no raise); the conda-update, pip-upgrade and git-install steps
re-raise as `FileNotFoundError`; the final update step continues on
failure; success returns `0`. -/
def check_dependencies (o : DepOutcomes) : Except PyErr Nat :=
  match o.cacheExc with
  | some _ => .ok 1
  | none =>
    match o.pythonUpExc with
    | some _ => .ok 1
    | none =>
      match o.condaUpExc with
      | some _ => .error .fileNotFoundError
      | none =>
        match o.pipUpExc with
        | some _ => .error .fileNotFoundError
        | none =>
          match o.gitExc with
          | some _ => .error .fileNotFoundError
          | none => .ok 0

/-- Action taken by `create_environment`. -/
inductive CEAction where
  | createdFromYaml
  | created
  | reinstalled
  | kept
deriving DecidableEq, Repr

/-- The interactive reinstall prompt of `create_environment`: consume one
stdin answer per prompt; `"y"` removes and recreates the environment
(the recursive call finds the environment gone and creates it without
prompting again), `"n"` keeps it, anything else re-prompts recursively.
An exhausted stdin models `input()` raising `EOFError`. -/
def create_env_loop : List String → Except PyErr (CEAction × List String)
  | [] => .error .eofError
  | ans :: rest =>
    if ans == "y" then .ok (.reinstalled, rest)
    else if ans == "n" then .ok (.kept, rest)
    else create_env_loop rest

/-- `create_environment(env_name, use_conda_yaml, resp)`: with
`use_conda_yaml` the environment is created from the YAML file with no
prompt; otherwise an existing environment triggers the reinstall prompt
(`resp`, when given, answers the first prompt — the recursion drops it);
a missing environment is created directly. -/
def create_environment (useYaml envExists : Bool) (resp : Option String)
    (inputs : List String) : Except PyErr (CEAction × List String) :=
  if useYaml then .ok (.createdFromYaml, inputs)
  else if envExists then
    match resp with
    | some r =>
      if r == "y" then .ok (.reinstalled, inputs)
      else if r == "n" then .ok (.kept, inputs)
      else create_env_loop inputs
    | none => create_env_loop inputs
  else .ok (.created, inputs)

/-- `install_iblrig(env_name)`: `get_env_python` joins the environment
folder with the interpreter path; when the environment folder is absent,
`get_env_folder` returns `None` and `os.path.join(None, ...)` raises a
`TypeError` that propagates. -/
def install_iblrig (envFound : Bool) : Except PyErr Unit :=
  if envFound then .ok () else .error .typeError

/-- Action taken by `configure_iblrig_params`. -/
inductive CfgAction where
  | resetToDefault
  | kept
  | freshConfig
deriving DecidableEq, Repr

/-- The interactive reset prompt of `configure_iblrig_params`: `"n"` keeps
the existing configuration, `"y"` resets it to defaults, anything else
re-prompts recursively. -/
def configure_loop : List String → Except PyErr (CfgAction × List String)
  | [] => .error .eofError
  | ans :: rest =>
    if ans == "n" then .ok (.kept, rest)
    else if ans == "y" then .ok (.resetToDefault, rest)
    else configure_loop rest

/-- `configure_iblrig_params(env_name, resp)`: raises `ValueError` when the
environment is not found; prompts when a previous configuration exists
(`resp` answers the first prompt, the recursion drops it); otherwise
creates the directory and runs the default setup. -/
def configure_iblrig_params (envFound paramsPathExists : Bool)
    (resp : Option String) (inputs : List String) :
    Except PyErr (CfgAction × List String) :=
  if envFound then
    if paramsPathExists then
      match resp with
      | some r =>
        if r == "n" then .ok (.kept, inputs)
        else if r == "y" then .ok (.resetToDefault, inputs)
        else configure_loop inputs
      | none => configure_loop inputs
    else .ok (.freshConfig, inputs)
  else .error .valueError

/-- The interactive prompt of `install_bonsai`: `"y"` runs the Bonsai setup
(skipped with a message off Windows), `"n"` declines, anything else
re-prompts recursively.  The boolean records whether `setup.bat` ran. -/
def bonsai_loop (isWindows : Bool) : List String →
    Except PyErr (Bool × List String)
  | [] => .error .eofError
  | ans :: rest =>
    if ans == "y" then .ok (isWindows, rest)
    else if ans == "n" then .ok (false, rest)
    else bonsai_loop isWindows rest

/-- `install_bonsai(resp)`: `resp`, when given, answers the first prompt;
the recursion on an invalid answer drops it. -/
def install_bonsai (isWindows : Bool) (resp : Option String)
    (inputs : List String) : Except PyErr (Bool × List String) :=
  match resp with
  | some r =>
    if r == "y" then .ok (isWindows, inputs)
    else if r == "n" then .ok (false, inputs)
    else bonsai_loop isWindows inputs
  | none => bonsai_loop isWindows inputs

/-- The body of `main(args)` before its catch-all handler: the five install
steps in sequence, threading the stdin stream through the prompts.
`envFound` is what `get_env_folder` reports after environment creation. -/
def install_steps (dep : DepOutcomes)
    (useYaml envExists envFound paramsPathExists isWindows : Bool)
    (respReinstall respConfig respBonsai : Option String)
    (inputs : List String) : Except PyErr Unit :=
  match check_dependencies dep with
  | .error e => .error e
  | .ok _ =>
    match create_environment useYaml envExists respReinstall inputs with
    | .error e => .error e
    | .ok (_, in1) =>
      match install_iblrig envFound with
      | .error e => .error e
      | .ok _ =>
        match configure_iblrig_params envFound paramsPathExists
            respConfig in1 with
        | .error e => .error e
        | .ok (_, in2) =>
          match install_bonsai isWindows respBonsai in2 with
          | .error e => .error e
          | .ok _ => .ok ()

/-- `main(args)`: the steps wrapped in `try/except BaseException`, which
prints and returns; no exception escapes. -/
def main_install (dep : DepOutcomes)
    (useYaml envExists envFound paramsPathExists isWindows : Bool)
    (respReinstall respConfig respBonsai : Option String)
    (inputs : List String) : Unit :=
  match install_steps dep useYaml envExists envFound paramsPathExists
      isWindows respReinstall respConfig respBonsai inputs with
  | .ok _ => ()
  | .error _ => ()

/-! ## Concrete inputs used by the claim theorems -/

/-- A store whose five calibration dates are all two days old on
2026-10-12: every subsystem is well within its freshness window. -/
def freshCalStore : Store :=
  [("F2TTL_CALIBRATION_DATE", "2026-10-10"),
   ("SCREEN_FREQ_TEST_DATE", "2026-10-10"),
   ("SCREEN_LUX_DATE", "2026-10-10"),
   ("WATER_CALIBRATION_DATE", "2026-10-10"),
   ("BPOD_TTL_TEST_DATE", "2026-10-10")]

/-- A store whose five calibration dates are all years past every
freshness window on 2026-10-12. -/
def expiredCalStore : Store :=
  [("F2TTL_CALIBRATION_DATE", "2020-01-01"),
   ("SCREEN_FREQ_TEST_DATE", "2020-01-01"),
   ("SCREEN_LUX_DATE", "2020-01-01"),
   ("WATER_CALIBRATION_DATE", "2020-01-01"),
   ("BPOD_TTL_TEST_DATE", "2020-01-01")]

/-- A store whose five calibration dates sit exactly at their staleness
threshold on 2026-10-12: date plus window equals today for each. -/
def boundaryCalStore : Store :=
  [("F2TTL_CALIBRATION_DATE", "2026-10-05"),
   ("SCREEN_FREQ_TEST_DATE", "2026-06-12"),
   ("SCREEN_LUX_DATE", "2026-06-12"),
   ("WATER_CALIBRATION_DATE", "2026-09-12"),
   ("BPOD_TTL_TEST_DATE", "2026-06-12")]

/-- A store whose five calibration dates are each one day past their
staleness threshold on 2026-10-12. -/
def onePastCalStore : Store :=
  [("F2TTL_CALIBRATION_DATE", "2026-10-04"),
   ("SCREEN_FREQ_TEST_DATE", "2026-06-11"),
   ("SCREEN_LUX_DATE", "2026-06-11"),
   ("WATER_CALIBRATION_DATE", "2026-09-11"),
   ("BPOD_TTL_TEST_DATE", "2026-06-11")]

/-- A store with the five expected date keys where the F2TTL date is empty
(falsy) and the remaining values are not even parseable as dates. -/
def missingDateStore : Store :=
  [("F2TTL_CALIBRATION_DATE", ""),
   ("SCREEN_FREQ_TEST_DATE", "garbage"),
   ("SCREEN_LUX_DATE", "also-not-a-date"),
   ("WATER_CALIBRATION_DATE", "x"),
   ("BPOD_TTL_TEST_DATE", "2026 13 99")]

/-- A two-entry parameter store with no `DATA_FOLDER_REMOTE` or
`DATA_FOLDER_LOCAL` key. -/
def noFolderStore : Store :=
  [("COM_BPOD", "COM1"), ("COM_ROTARY_ENCODER", "COM2")]

/-- A store holding a rotary-encoder port (two entries, so the grep of the
full store stays a dict). -/
def reStore : Store :=
  [("COM_ROTARY_ENCODER", "COM3"), ("COM_BPOD", "COM1")]

/-- A device world where the rotary encoder opens but `set_zero_position`
raises. -/
def reZeroFails : REWorld := ⟨none, some .deviceError, none⟩

/-- A device world where every rotary-encoder call succeeds. -/
def reAllOk : REWorld := ⟨none, none, none⟩

/-- Dependency-step outcomes where nothing raises. -/
def depAllOk : DepOutcomes := ⟨none, none, none, none, none, none, none⟩

/-- Dependency-step outcomes where only the git-install step raises. -/
def depGitFails : DepOutcomes :=
  ⟨none, none, none, none, none, some .deviceError, none⟩

/-! ## Claim theorems -/

/-- Claim C1 (code bug evidence): `calibration_dates_ok` computes
`out[k] = subdict[k] + thresh[k] < today` and returns `all(out.values())`,
so it returns `False` when every calibration is fresh and `True` when every
calibration is long expired — the opposite of reporting success exactly
when every subsystem is within its window.  (The code contradicts its own
log message, which lists the keys with `out[k]` false as the outdated
ones.) -/
theorem calibration_dates_ok_inverted :
    calibration_dates_ok ⟨2026, 10, 12⟩ freshCalStore = .ok false ∧
      calibration_dates_ok ⟨2026, 10, 12⟩ expiredCalStore = .ok true := by
  decide

/-- Claim C4 (code bug evidence): with every date exactly at its threshold
(date plus window equals today) the function returns `False` — the
boundary date counts against the check and is logged as outdated — while
with every date one step past its threshold it returns `True`.  The claim
(and the code's own log message) say the boundary is NOT stale and a date
past the window is stale, the reverse of what is computed. -/
theorem calibration_boundary_inverted :
    calibration_dates_ok ⟨2026, 10, 12⟩ boundaryCalStore = .ok false ∧
      calibration_dates_ok ⟨2026, 10, 12⟩ onePastCalStore = .ok true := by
  decide

/-- Claim C2: the 3-bit status of `alyx_server_rig_ok` is `0b111` exactly
when all three checks succeed, and each check controls exactly its own bit
(bit 2 remote metadata, bit 1 remote data folder, bit 0 local data
folder); clearing exactly one check clears exactly that bit of the
rendered value. -/
theorem alyx_server_rig_ok_bits (a r l : Bool) :
    (alyx_server_rig_ok a r l = "0b111" ↔ a = true ∧ r = true ∧ l = true) ∧
      Nat.testBit (alyx_server_rig_val a r l) 2 = a ∧
      Nat.testBit (alyx_server_rig_val a r l) 1 = r ∧
      Nat.testBit (alyx_server_rig_val a r l) 0 = l ∧
      (a = false → r = true → l = true →
        alyx_server_rig_ok a r l = "0b11") ∧
      (a = true → r = false → l = true →
        alyx_server_rig_ok a r l = "0b101") ∧
      (a = true → r = true → l = false →
        alyx_server_rig_ok a r l = "0b110") := by
  cases a <;> cases r <;> cases l <;> decide

/-- Witness for C2: with only the remote-metadata check down the status
renders as `bin(0b011)`. -/
theorem alyx_server_rig_ok_bits_witness :
    alyx_server_rig_ok false true true = "0b11" :=
  (alyx_server_rig_ok_bits false true true).2.2.2.2.1 rfl rfl rfl

/-- Claim C5: whenever the grep of the store for `"DATE"` yields a
dictionary whose key set matches the five expected calibration keys and at
least one value is empty (falsy), `calibration_dates_ok` returns `False`,
whatever the other values hold — in particular no date string is parsed. -/
theorem calibration_missing_date_false (today : Date) (store sd : Store)
    (h1 : grep_param_dict "DATE" store = .dict sd)
    (h2 : keysMatchCal sd = true)
    (h3 : sd.any (fun kv => kv.2 == "") = true) :
    calibration_dates_ok today store = .ok false := by
  have hall : sd.all (fun kv => kv.2 != "") = false := by
    rw [List.any_eq_true] at h3
    obtain ⟨kv, hmem, hkv⟩ := h3
    rw [List.all_eq_false]
    refine ⟨kv, hmem, ?_⟩
    simp only [bne] at *
    simp [hkv]
  unfold calibration_dates_ok
  rw [h1]
  simp [h2, hall]

/-- Witness for C5: on a store whose F2TTL date is empty and whose other
four date values are unparseable garbage, the check still returns
`False` (no parse is attempted). -/
theorem calibration_missing_date_false_witness :
    calibration_dates_ok ⟨2026, 10, 12⟩ missingDateStore = .ok false :=
  calibration_missing_date_false ⟨2026, 10, 12⟩ missingDateStore
    missingDateStore (by decide) (by decide) (by decide)

/-- Counterexample for C9: on a store whose only `DATE`-containing key is
`SCREEN_LUX_DATE`, `_grep_param_dict` collapses to the bare value, and
`subdict.keys()` raises an `AttributeError` — not the assertion failure
the claim states. -/
theorem calibration_keyset_not_assertion :
    calibration_dates_ok ⟨2026, 1, 1⟩ [("BPOD_TTL_TEST_DATE", "2020-01-01")] =
        .error .attributeError ∧
      PyErr.attributeError ≠ PyErr.assertionError := by
  decide

/-- Claim C9 (amended): when the `DATE`-keyed slice of the store is not
exactly the five expected calibration keys, `calibration_dates_ok` raises
instead of returning a boolean: an `AttributeError` when the grep
collapsed to a single bare value, and an `AssertionError` whenever the
grep yields a dictionary whose key set differs from the expected five. -/
theorem calibration_keyset_guard (today : Date) (store : Store) :
    (∀ v, grep_param_dict "DATE" store = .single v →
      calibration_dates_ok today store = .error .attributeError) ∧
      (∀ sd, grep_param_dict "DATE" store = .dict sd → keysMatchCal sd = false →
        calibration_dates_ok today store = .error .assertionError) := by
  constructor
  · intro v hv
    unfold calibration_dates_ok
    rw [hv]
  · intro sd hsd hk
    unfold calibration_dates_ok
    rw [hsd]
    simp [hk]

/-- Witness for C9: a store with a single `DATE` key triggers the
`AttributeError` branch. -/
theorem calibration_keyset_guard_witness :
    calibration_dates_ok ⟨2026, 1, 1⟩ [("SCREEN_LUX_DATE", "x")] =
      .error .attributeError :=
  (calibration_keyset_guard ⟨2026, 1, 1⟩ [("SCREEN_LUX_DATE", "x")]).1 "x" rfl

/-- Claim C10: `_grep_param_dict` returns the sub-dictionary of entries
whose key contains the pattern, except that a unique match collapses to the
bare value; consequently a Python membership test on its result means
substring-of-value in the one-match case and key-membership otherwise. -/
theorem grep_param_dict_collapse (store : Store) (pattern needle : String) :
    (∀ k v, store.filter (fun kv => strContains kv.1 pattern) = [(k, v)] →
      grep_param_dict pattern store = .single v ∧
        pyIn needle (grep_param_dict pattern store) = strContains v needle) ∧
      (∀ l, store.filter (fun kv => strContains kv.1 pattern) = l →
        l.length ≠ 1 →
        grep_param_dict pattern store = .dict l ∧
          pyIn needle (grep_param_dict pattern store) =
            l.any (fun kv => kv.1 == needle)) := by
  constructor
  · intro k v hf
    unfold grep_param_dict
    rw [hf]
    exact ⟨rfl, rfl⟩
  · intro l hf hlen
    unfold grep_param_dict
    rw [hf]
    match l, hlen with
    | [], _ => exact ⟨rfl, rfl⟩
    | [kv], h => exact absurd rfl h
    | kv₁ :: kv₂ :: t, _ => exact ⟨rfl, rfl⟩

/-- Witness for C10: with a single key containing `NAME`, the membership
test for `"ephys"` is a substring test on the bare value and succeeds on
`"ephys_rig1"`; with two matching keys it is a key-membership test and
fails for the same needle. -/
theorem grep_param_dict_collapse_witness :
    (grep_param_dict "NAME" [("BOARD_NAME", "ephys_rig1"), ("COM", "1")] =
        .single "ephys_rig1" ∧
      pyIn "ephys" (grep_param_dict "NAME"
          [("BOARD_NAME", "ephys_rig1"), ("COM", "1")]) =
        strContains "ephys_rig1" "ephys") ∧
      grep_param_dict "NAME" [("BOARD_NAME", "ephys_rig1"), ("NAME", "x")] =
          .dict [("BOARD_NAME", "ephys_rig1"), ("NAME", "x")] ∧
        pyIn "ephys" (grep_param_dict "NAME"
            [("BOARD_NAME", "ephys_rig1"), ("NAME", "x")]) =
          List.any [("BOARD_NAME", "ephys_rig1"), ("NAME", "x")]
            (fun kv => kv.1 == "ephys") :=
  ⟨(grep_param_dict_collapse [("BOARD_NAME", "ephys_rig1"), ("COM", "1")]
      "NAME" "ephys").1 "BOARD_NAME" "ephys_rig1" (by decide),
    (grep_param_dict_collapse [("BOARD_NAME", "ephys_rig1"), ("NAME", "x")]
      "NAME" "ephys").2 [("BOARD_NAME", "ephys_rig1"), ("NAME", "x")]
      (by decide) (by decide)⟩

lemma dictLookup_error_is_keyError (d : Store) (k : String) (e : PyErr)
    (h : dictLookup d k = .error e) : e = PyErr.keyError := by
  unfold dictLookup at h
  cases hf : d.find? (fun kv => kv.1 == k) with
  | none => rw [hf] at h; exact (Except.error.injEq _ _).mp h.symm
  | some kv => rw [hf] at h; exact absurd h (by simp)

lemma rotary_encoder_ok_run_isOk (store : Store) (w : REWorld) :
    (rotary_encoder_ok_run store w).result.isOk = true := by
  unfold rotary_encoder_ok_run
  repeat' split
  all_goals rfl

lemma bpod_ok_run_isOk (store : Store) (w : BpodWorld) :
    (bpod_ok_run store w).result.isOk = true := by
  unfold bpod_ok_run
  repeat' split
  all_goals rfl

lemma f2ttl_ok_run_isOk (store : Store) (w : F2World) :
    (f2ttl_ok_run store w).result.isOk = true := by
  unfold f2ttl_ok_run
  repeat' split
  all_goals rfl

lemma bpod_modules_ok_run_isOk (store : Store) (w : BpodModWorld) :
    (bpod_modules_ok_run store w).result.isOk = true := by
  unfold bpod_modules_ok_run
  repeat' split
  all_goals rfl

/-- Counterexample for C3: `rig_data_folder_ok` has no exception handler;
on a store without a `DATA_FOLDER_LOCAL` key its parameter lookup raises a
`KeyError` that propagates to the caller instead of a failure return. -/
theorem rig_data_folder_ok_propagates :
    rig_data_folder_ok (fun _ => false) noFolderStore =
      .error .keyError := by
  decide

/-- Claim C3 (amended): every probe that wraps its body in `try/except`
(the rotary-encoder, Bpod, Frame2TTL and Bpod-modules probes) converts any
exception from its parameter lookup or device calls into a boolean return;
`local_server_ok` and `rig_data_folder_ok` have no handler, and the only
way they fail to return a boolean is the propagating lookup error
(`TypeError` from indexing a collapsed bare value, or `KeyError` for a
missing data-folder key). -/
theorem probes_catch_exceptions (store : Store) (wr : REWorld)
    (wb : BpodWorld) (wf : F2World) (wm : BpodModWorld)
    (fs : String → Bool) :
    (rotary_encoder_ok_run store wr).result.isOk = true ∧
      (bpod_ok_run store wb).result.isOk = true ∧
      (f2ttl_ok_run store wf).result.isOk = true ∧
      (bpod_modules_ok_run store wm).result.isOk = true ∧
      (∀ e, local_server_ok fs store = .error e →
        e = PyErr.typeError ∨ e = PyErr.keyError) ∧
      (∀ e, rig_data_folder_ok fs store = .error e →
        e = PyErr.typeError ∨ e = PyErr.keyError) := by
  refine ⟨rotary_encoder_ok_run_isOk store wr, bpod_ok_run_isOk store wb,
    f2ttl_ok_run_isOk store wf, bpod_modules_ok_run_isOk store wm, ?_, ?_⟩
  · intro e h
    unfold local_server_ok at h
    split at h
    · exact Or.inl ((Except.error.injEq _ _).mp h.symm)
    · split at h
      · rename_i e2 hl
        have he2 := dictLookup_error_is_keyError _ _ e2 hl
        subst he2
        exact Or.inr ((Except.error.injEq _ _).mp h.symm)
      · exact absurd h (by simp)
  · intro e h
    unfold rig_data_folder_ok at h
    split at h
    · exact Or.inl ((Except.error.injEq _ _).mp h.symm)
    · split at h
      · rename_i e2 hl
        have he2 := dictLookup_error_is_keyError _ _ e2 hl
        subst he2
        exact Or.inr ((Except.error.injEq _ _).mp h.symm)
      · exact absurd h (by simp)

/-- Witness for C3: on a store without the data-folder keys, the lookup
error of `local_server_ok` is the `KeyError`. -/
theorem probes_catch_exceptions_witness :
    PyErr.keyError = PyErr.typeError ∨ PyErr.keyError = PyErr.keyError :=
  (probes_catch_exceptions noFolderStore reAllOk ⟨none, none, none, none⟩
    ⟨none, .ok true, none⟩ ⟨none, [], none⟩ (fun _ => false)).2.2.2.2.1
    PyErr.keyError rfl

/-- Counterexample for C8: when `set_zero_position` raises after the rotary
encoder was opened, the `except` handler returns `False` without closing
the handle — the exception path does not release the device handle. -/
theorem rotary_handle_leak :
    (rotary_encoder_ok_run reStore reZeroFails).opened = true ∧
      (rotary_encoder_ok_run reStore reZeroFails).closed = false ∧
      (rotary_encoder_ok_run reStore reZeroFails).result = .ok false := by
  decide

/-- Claim C8 (amended): each device-opening probe closes its handle only on
the paths where no device call raises after the open: the rotary-encoder
and Bpod probes close exactly on the fully-successful run, the Frame2TTL
probe closes exactly when it opened, `isOpen` returned, and `close` did not
raise, and the module-listing probe closes exactly when it opened and
`close` did not raise; an exception between open and close leaves the
handle open. -/
theorem probes_handle_scope (store : Store) (wr : REWorld) (wb : BpodWorld)
    (wf : F2World) (wm : BpodModWorld) :
    ((rotary_encoder_ok_run store wr).closed = true ↔
      (rotary_encoder_ok_run store wr).result = .ok true) ∧
      ((bpod_ok_run store wb).closed = true ↔
        (bpod_ok_run store wb).result = .ok true) ∧
      ((f2ttl_ok_run store wf).closed = true ↔
        ((f2ttl_ok_run store wf).opened = true ∧
          wf.isOpenRes.isOk = true ∧ wf.closeExc = none)) ∧
      ((bpod_modules_ok_run store wm).closed = true ↔
        ((bpod_modules_ok_run store wm).opened = true ∧
          wm.closeExc = none)) := by
  refine ⟨?_, ?_, ?_, ?_⟩
  · unfold rotary_encoder_ok_run
    repeat' split
    all_goals simp_all
  · unfold bpod_ok_run
    repeat' split
    all_goals simp_all
  · unfold f2ttl_ok_run
    repeat' split
    all_goals simp_all [Except.isOk, Except.toBool]
  · unfold bpod_modules_ok_run
    repeat' split
    all_goals simp_all

/-- Witness for C8: a fully-successful rotary-encoder run has its handle
closed on return. -/
theorem probes_handle_scope_witness :
    (rotary_encoder_ok_run reStore reAllOk).closed = true :=
  (probes_handle_scope reStore reAllOk ⟨none, none, none, none⟩
    ⟨none, .ok true, none⟩ ⟨none, [], none⟩).1.mpr rfl

lemma check_dependencies_error (o : DepOutcomes) (e : PyErr)
    (h : check_dependencies o = .error e) : e = PyErr.fileNotFoundError := by
  unfold check_dependencies at h
  repeat' split at h
  all_goals simp_all

lemma create_env_loop_error (inputs : List String) (e : PyErr)
    (h : create_env_loop inputs = .error e) : e = PyErr.eofError := by
  induction inputs with
  | nil =>
    unfold create_env_loop at h
    exact ((Except.error.injEq _ _).mp h).symm
  | cons a rest ih =>
    unfold create_env_loop at h
    split at h
    · exact absurd h (by simp)
    · split at h
      · exact absurd h (by simp)
      · exact ih h

lemma create_environment_error (useYaml envExists : Bool)
    (resp : Option String) (inputs : List String) (e : PyErr)
    (h : create_environment useYaml envExists resp inputs = .error e) :
    e = PyErr.eofError := by
  unfold create_environment at h
  repeat' split at h
  all_goals first
    | exact absurd h (by simp)
    | exact create_env_loop_error _ _ h

lemma configure_loop_error (inputs : List String) (e : PyErr)
    (h : configure_loop inputs = .error e) : e = PyErr.eofError := by
  induction inputs with
  | nil =>
    unfold configure_loop at h
    exact ((Except.error.injEq _ _).mp h).symm
  | cons a rest ih =>
    unfold configure_loop at h
    split at h
    · exact absurd h (by simp)
    · split at h
      · exact absurd h (by simp)
      · exact ih h

lemma configure_iblrig_params_error (envFound pathExists : Bool)
    (resp : Option String) (inputs : List String) (e : PyErr)
    (h : configure_iblrig_params envFound pathExists resp inputs = .error e) :
    e = PyErr.valueError ∨ e = PyErr.eofError := by
  unfold configure_iblrig_params at h
  repeat' split at h
  all_goals first
    | exact Or.inl ((Except.error.injEq _ _).mp h).symm
    | exact Or.inr (configure_loop_error _ _ h)
    | exact absurd h (by simp)

lemma bonsai_loop_error (isWin : Bool) (inputs : List String) (e : PyErr)
    (h : bonsai_loop isWin inputs = .error e) : e = PyErr.eofError := by
  induction inputs with
  | nil =>
    unfold bonsai_loop at h
    exact ((Except.error.injEq _ _).mp h).symm
  | cons a rest ih =>
    unfold bonsai_loop at h
    split at h
    · exact absurd h (by simp)
    · split at h
      · exact absurd h (by simp)
      · exact ih h

lemma install_bonsai_error (isWin : Bool) (resp : Option String)
    (inputs : List String) (e : PyErr)
    (h : install_bonsai isWin resp inputs = .error e) :
    e = PyErr.eofError := by
  unfold install_bonsai at h
  repeat' split at h
  all_goals first
    | exact absurd h (by simp)
    | exact bonsai_loop_error _ _ _ h

lemma install_iblrig_error (envFound : Bool) (e : PyErr)
    (h : install_iblrig envFound = .error e) : e = PyErr.typeError := by
  unfold install_iblrig at h
  split at h
  · exact absurd h (by simp)
  · exact ((Except.error.injEq _ _).mp h).symm

/-- Counterexample for C6: errors other than the three explicit
`FileNotFoundError` aborts of the dependency step escape installer steps
to `main`: with the conda environment absent, `install_iblrig` propagates
the `TypeError` from `os.path.join(None, ...)`, and
`configure_iblrig_params` raises a `ValueError`; neither is a git/pip/conda
abort. -/
theorem installer_extra_errors_propagate :
    install_steps depAllOk true true false true true none none none [] =
        .error .typeError ∧
      configure_iblrig_params false true none [] = .error .valueError ∧
      PyErr.typeError ≠ PyErr.fileNotFoundError ∧
      PyErr.valueError ≠ PyErr.fileNotFoundError := by
  decide

/-- Claim C6 (amended): the errors that can propagate from an installer
step to `main` are the explicit `FileNotFoundError` aborts of the
conda-update, pip-upgrade and git-install steps, the `TypeError` and
`ValueError` arising when the conda environment is missing, and `EOFError`
from an exhausted interactive input stream; every other failing step
returns normally, and `main` itself catches every one of these, so nothing
reaches `main`'s caller. -/
theorem installer_error_taxonomy (dep : DepOutcomes)
    (useYaml envExists envFound pathExists isWin : Bool)
    (r1 r2 r3 : Option String) (inputs : List String) :
    (∀ e, install_steps dep useYaml envExists envFound pathExists isWin
        r1 r2 r3 inputs = .error e →
      e = PyErr.fileNotFoundError ∨ e = PyErr.typeError ∨
        e = PyErr.valueError ∨ e = PyErr.eofError) ∧
      main_install dep useYaml envExists envFound pathExists isWin
        r1 r2 r3 inputs = () := by
  constructor
  · intro e h
    unfold install_steps at h
    split at h
    · rename_i e1 h1
      have he := check_dependencies_error _ _ h1
      subst he
      exact Or.inl ((Except.error.injEq _ _).mp h).symm
    · split at h
      · rename_i e1 h1
        have he := create_environment_error _ _ _ _ _ h1
        subst he
        exact Or.inr (Or.inr (Or.inr ((Except.error.injEq _ _).mp h).symm))
      · split at h
        · rename_i e1 h1
          have he := install_iblrig_error _ _ h1
          subst he
          exact Or.inr (Or.inl ((Except.error.injEq _ _).mp h).symm)
        · split at h
          · rename_i e1 h1
            have he := configure_iblrig_params_error _ _ _ _ _ h1
            have he2 := ((Except.error.injEq _ _).mp h).symm
            subst he2
            rcases he with he | he
            · exact Or.inr (Or.inr (Or.inl he))
            · exact Or.inr (Or.inr (Or.inr he))
          · split at h
            · rename_i e1 h1
              have he := install_bonsai_error _ _ _ _ h1
              subst he
              exact Or.inr (Or.inr (Or.inr ((Except.error.injEq _ _).mp h).symm))
            · exact absurd h (by simp)
  · rfl

/-- Witness for C6: a failing git-install step yields the fatal
`FileNotFoundError`, which is in the characterized error set. -/
theorem installer_error_taxonomy_witness :
    (PyErr.fileNotFoundError = PyErr.fileNotFoundError ∨
        PyErr.fileNotFoundError = PyErr.typeError ∨
        PyErr.fileNotFoundError = PyErr.valueError ∨
        PyErr.fileNotFoundError = PyErr.eofError) ∧
      main_install depGitFails false false true true true none none none
        [] = () :=
  ⟨(installer_error_taxonomy depGitFails false false true true true
      none none none []).1 PyErr.fileNotFoundError rfl,
    (installer_error_taxonomy depGitFails false false true true true
      none none none []).2⟩

lemma create_env_loop_first_valid (invalids : List String) (v : String)
    (rest : List String) (h : ∀ a ∈ invalids, a ≠ "y" ∧ a ≠ "n")
    (hv : v = "y" ∨ v = "n") :
    create_env_loop (invalids ++ v :: rest) =
      .ok ((if v = "y" then CEAction.reinstalled else CEAction.kept), rest) := by
  induction invalids with
  | nil =>
    simp only [List.nil_append]
    unfold create_env_loop
    rcases hv with hv | hv <;> subst hv <;> simp
  | cons a as ih =>
    have ha := h a (List.mem_cons_self a as)
    simp only [List.cons_append]
    unfold create_env_loop
    simp only [show (a == "y") = false by simp [ha.1],
      show (a == "n") = false by simp [ha.2], Bool.false_eq_true,
      if_false]
    exact ih (fun x hx => h x (List.mem_cons_of_mem a hx))

lemma configure_loop_first_valid (invalids : List String) (v : String)
    (rest : List String) (h : ∀ a ∈ invalids, a ≠ "y" ∧ a ≠ "n")
    (hv : v = "y" ∨ v = "n") :
    configure_loop (invalids ++ v :: rest) =
      .ok ((if v = "y" then CfgAction.resetToDefault else CfgAction.kept),
        rest) := by
  induction invalids with
  | nil =>
    simp only [List.nil_append]
    unfold configure_loop
    rcases hv with hv | hv <;> subst hv <;> simp
  | cons a as ih =>
    have ha := h a (List.mem_cons_self a as)
    simp only [List.cons_append]
    unfold configure_loop
    simp only [show (a == "y") = false by simp [ha.1],
      show (a == "n") = false by simp [ha.2], Bool.false_eq_true,
      if_false]
    exact ih (fun x hx => h x (List.mem_cons_of_mem a hx))

lemma bonsai_loop_first_valid (isWin : Bool) (invalids : List String)
    (v : String) (rest : List String)
    (h : ∀ a ∈ invalids, a ≠ "y" ∧ a ≠ "n") (hv : v = "y" ∨ v = "n") :
    bonsai_loop isWin (invalids ++ v :: rest) =
      .ok ((if v = "y" then isWin else false), rest) := by
  induction invalids with
  | nil =>
    simp only [List.nil_append]
    unfold bonsai_loop
    rcases hv with hv | hv <;> subst hv <;> simp
  | cons a as ih =>
    have ha := h a (List.mem_cons_self a as)
    simp only [List.cons_append]
    unfold bonsai_loop
    simp only [show (a == "y") = false by simp [ha.1],
      show (a == "n") = false by simp [ha.2], Bool.false_eq_true,
      if_false]
    exact ih (fun x hx => h x (List.mem_cons_of_mem a hx))

/-- Claim C7: for each of the three interactive prompts, an input stream of
invalid answers followed by a valid one makes the prompt re-issue once per
invalid answer (consuming exactly one stdin line each) and act exactly on
the first valid answer, with no exception: the environment prompt
reinstalls on `"y"` and keeps on `"n"`, the config prompt resets on `"y"`
and keeps on `"n"`, and the Bonsai prompt installs on `"y"` (on Windows)
and declines on `"n"`, each leaving the rest of the stream unread. -/
theorem prompts_act_on_first_valid (invalids : List String) (v : String)
    (rest : List String) (isWin : Bool)
    (h : ∀ a ∈ invalids, a ≠ "y" ∧ a ≠ "n") (hv : v = "y" ∨ v = "n") :
    create_environment false true none (invalids ++ v :: rest) =
        .ok ((if v = "y" then CEAction.reinstalled else CEAction.kept),
          rest) ∧
      configure_iblrig_params true true none (invalids ++ v :: rest) =
        .ok ((if v = "y" then CfgAction.resetToDefault else CfgAction.kept),
          rest) ∧
      install_bonsai isWin none (invalids ++ v :: rest) =
        .ok ((if v = "y" then isWin else false), rest) :=
  ⟨create_env_loop_first_valid invalids v rest h hv,
    configure_loop_first_valid invalids v rest h hv,
    bonsai_loop_first_valid isWin invalids v rest h hv⟩

/-- Witness for C7: after the invalid answer `"x"`, each prompt re-prompts
and acts on the following `"y"`. -/
theorem prompts_act_on_first_valid_witness :
    create_environment false true none ["x", "y"] =
        .ok (CEAction.reinstalled, []) ∧
      configure_iblrig_params true true none ["x", "y"] =
        .ok (CfgAction.resetToDefault, []) ∧
      install_bonsai true none ["x", "y"] = .ok (true, []) := by
  have := prompts_act_on_first_valid ["x"] "y" [] true (by decide)
    (Or.inl rfl)
  simpa using this
